import Mathlib

/-!
Verification of the dataset-pipeline core of the ultravox training repository.

The embedding covers `src/ultravox/training/train.py` (`fix_hyphens`,
`prepare_dataset`, the dataset-selection portion of `train`) and
`src/ultravox/training/config_base.py` (`TrainConfig` and its
`__post_init__`).  Components that live in modules outside `src/`
(`ultravox.data.datasets`, `ultravox.data.dataset_config`,
`ultravox.model.data_processing`) are modelled from the specification and
are marked as such in their doc comments.
-/

namespace Ultravox

/-- Stop strategy for the interleave engine
(`ultravox.data.dataset_config.StopStrategy`, referenced from
`config_base.py` line 38 and `train.py` line 66). -/
inductive StopStrategy where
  | FIRST_EXHAUSTED
  | LAST_EXHAUSTED
  | NEVER_STOP
deriving DecidableEq, Repr

/-- Dataset split (`datasets.DatasetSplit`, used at `train.py` line 246). -/
inductive DatasetSplit where
  | TRAIN
  | VALIDATION
deriving DecidableEq, Repr

/-- Modelled from the spec: `VoiceDatasetArgs` (module `ultravox.data.datasets`
is not under `src/`): "configuration with recognized options: number of prompt
variants, split (TRAIN/VALIDATION), data directory, shuffle flag, shuffle
seed, maximum audio duration in seconds, whether to include audio,
columnar-storage batch size".  Field names and the keyword arguments follow
the constructor calls at `train.py` lines 231-238 and 244-252. -/
structure VoiceDatasetArgs where
  num_prompts : Nat := 1
  split : DatasetSplit := DatasetSplit.TRAIN
  data_dir : Option String := none
  shuffle : Bool := false
  shuffle_seed : Int := 42
  max_audio_duration_secs : Option ℚ := none
  include_audio : Bool := true
  use_mds : Bool := false
  mds_batch_size : Nat := 2
deriving DecidableEq, Repr

/-- One entry of `InterleaveDataConfig.datasets_with_multiplier`
(`ultravox.data.dataset_config`, read at `train.py` lines 54-61;
spec: "one interleave-set member - dataset identifier/name ... plus a
multiplier (relative sampling weight, default 1.0)"). -/
structure DatasetConfigEntry where
  dataset : String
  multiplier : ℚ := 1
deriving DecidableEq, Repr

/-- Modelled from the spec: `InterleaveDataConfig` ("ordered sequence of
DatasetConfig entries plus a stop strategy enum"); field names follow the
accesses in `train.py` lines 53-61. -/
structure InterleaveDataConfig where
  datasets_with_multiplier : List DatasetConfigEntry
  stop_strategy : StopStrategy
deriving DecidableEq, Repr

/-- A raw dictionary as parsed by `simple_parsing` for the `data_dicts`
field of `TrainConfig` (key-value pairs of strings, order preserved). -/
def RawDict : Type := List (String × String)

instance : DecidableEq RawDict := by
  unfold RawDict
  infer_instance

/-- Modelled from the spec: `DataDictConfig` ("dataset identifier/name or
embedded dict spec, plus a multiplier"); `ultravox.data.dataset_config` is
not under `src/`.  The Pydantic validation performed by
`DataDictConfig(**data_dict)` (`config_base.py` line 95) is modelled as
wrapping the raw dictionary. -/
structure DataDictConfig where
  spec : RawDict
deriving DecidableEq

/-- Conversion performed at `config_base.py` lines 94-97:
`dataset_config.DataDictConfig(**data_dict)`. -/
def DataDictConfig.ofDict (d : RawDict) : DataDictConfig := ⟨d⟩

/-- An element of `TrainConfig.data_sets`: originally a dataset name
(`List[str]`, `config_base.py` line 18); after `__post_init__`,
`DataDictConfig` objects may be appended (`config_base.py` line 101). -/
inductive DataSetEntry where
  | name (s : String)
  | dict (d : DataDictConfig)
deriving DecidableEq

/-- `TrainConfig` (`config_base.py` lines 16-90), restricted to the fields
the dataset-pipeline core reads; defaults are those of the source.
Orchestration-only fields (model ids, LoRA configs, logging and filesystem
paths, learning-rate schedule) are omitted. -/
structure TrainConfig where
  data_sets : List DataSetEntry := []
  val_sets : List String := []
  data_dicts : Option (List RawDict) := none
  stop_strategy : StopStrategy := StopStrategy.LAST_EXHAUSTED
  data_dir : Option String := none
  mds : Bool := false
  num_samples : Option Nat := none
  val_num_samples : Nat := 100
  num_prompts : Nat := 1
  train_on_inputs : Bool := false
  shuffle_data : Bool := false
  max_audio_duration_secs : Option ℚ := none
  device : String := "cuda"
  data_type : String := "bfloat16"
  optimizer : String := "adamw_torch"
  num_epochs : Nat := 1
  max_steps : Nat := 0
  batch_size : Nat := 2
  seed : Int := 42
  shuffle_seed : Int := 42
deriving DecidableEq

/-- The machine environment probed by `__post_init__`
(`torch.cuda.is_available()`, `torch.backends.mps.is_available()`). -/
structure SysEnv where
  cuda_available : Bool
  mps_available : Bool
deriving DecidableEq, Repr

/-- `config_base.py` lines 93-101: `if self.data_dicts:` convert every dict
to a `DataDictConfig` and `self.data_sets.extend(self.data_dicts)`.  A
`None` or empty `data_dicts` is falsy, leaving `data_sets` unchanged. -/
def TrainConfig.applyDataDicts (c : TrainConfig) : TrainConfig :=
  match c.data_dicts with
  | none => c
  | some dicts =>
      if dicts.isEmpty then c
      else
        { c with
          data_sets :=
            c.data_sets ++
              dicts.map (fun d => DataSetEntry.dict (DataDictConfig.ofDict d)) }

/-- `config_base.py` lines 104-105: when `device == "cuda"` but CUDA is not
available, fall back to `"mps"` when available, else `"cpu"`. -/
def TrainConfig.resolveDevice (env : SysEnv) (c : TrainConfig) : TrainConfig :=
  if c.device = "cuda" && !env.cuda_available then
    { c with device := if env.mps_available then "mps" else "cpu" }
  else c

/-- `config_base.py` lines 106-113: on a non-CUDA device, coerce
`"bfloat16"` to `"float32"` and `"adamw_bnb_8bit"` to `"adamw_torch"`. -/
def TrainConfig.coerceForDevice (c : TrainConfig) : TrainConfig :=
  if c.device ≠ "cuda" then
    let c :=
      if c.data_type = "bfloat16" then { c with data_type := "float32" } else c
    if c.optimizer = "adamw_bnb_8bit" then { c with optimizer := "adamw_torch" } else c
  else c

/-- `TrainConfig.__post_init__` (`config_base.py` lines 92-113), as a pure
validating function performing the source's field mutations in order: the
`data_dicts` conversion and `data_sets.extend` (lines 93-101), the
`data_type` assertion (line 103; a failed `assert` is an `Except.error`),
the device fallback (lines 104-105) and the device-dependent coercions of
`data_type` and `optimizer` (lines 106-113).  The `exp_name`/`output_dir`/
`logs_dir` defaulting and the LayerDrop warning (lines 115-131) touch only
omitted orchestration fields. -/
def TrainConfig.post_init (env : SysEnv) (c : TrainConfig) : Except String TrainConfig :=
  if !(c.applyDataDicts.data_type ∈ ["bfloat16", "float16", "float32"]) then
    Except.error "assert self.data_type in [bfloat16, float16, float32]"
  else
    Except.ok ((c.applyDataDicts.resolveDevice env).coerceForDevice)

/-- `fix_hyphens` (`train.py` lines 39-40):
`re.sub(r"^--([^=]+)", lambda m: "--" + m.group(1).replace("-", "_"), arg)`.
The anchored pattern matches a leading `--` followed by a maximal nonempty
run of non-`=` characters; the replacement keeps the `--` and replaces every
hyphen of the captured group with an underscore.  Strings are modelled as
character lists. -/
def fix_hyphens (arg : List Char) : List Char :=
  match arg with
  | '-' :: '-' :: rest =>
      let group := rest.takeWhile (fun c => c ≠ '=')
      if group.isEmpty then arg
      else
        '-' :: '-' ::
          (group.map (fun c => if c = '-' then '_' else c) ++
            rest.dropWhile (fun c => c ≠ '='))
  | _ => arg

/-- A source dataset as created by `datasets.create_dataset(ds, data_args)`
(`train.py` lines 55, 64): the name it was created from, the
`VoiceDatasetArgs` it received, and the length it reports via `len()`
(`create_dataset` is outside `src/`, so the length is part of the model). -/
structure SourceDataset where
  name : String
  data_args : VoiceDatasetArgs
  len : Nat
deriving DecidableEq

/-- The pipeline of dataset wrappers built by `prepare_dataset` and `train`.
Constructors mirror the classes the source instantiates:
`datasets.create_dataset` (`train.py` lines 55, 64), `datasets.InterleaveDataset`
(line 76), `data_processing.UltravoxDataproc` (line 81), `datasets.Range`
(line 87) and `datasets.EmptyDataset` (lines 274-275).  The classes
themselves live outside `src/`; here a dataset value records how it was
composed, and `Dataset.length` (below) models the lengths they report. -/
inductive Dataset where
  | source (ds : SourceDataset)
  | interleave (sources : List SourceDataset) (stop_strategy : StopStrategy)
      (multipliers : List ℚ)
  | dataproc (inner : Dataset) (train_on_inputs : Bool) (include_alt_fields : Bool)
  | range (inner : Dataset) (num_samples : Option Nat)
  | empty (len : Nat := 0)
deriving DecidableEq

/-- Modelled from the spec: the `len()` reported by each wrapper
(the classes are outside `src/`).  Interleave: "Reported length is the sum
of per-source reported lengths".  Range: "Reported length is
`min(requested_cap, inner_length)` when capped, else the inner length
unchanged".  Dataproc transforms samples one-for-one.  Empty/stand-in:
"reports a caller-specified length (or zero)". -/
def Dataset.length : Dataset → Nat
  | .source ds => ds.len
  | .interleave sources _ _ => (sources.map SourceDataset.len).sum
  | .dataproc inner _ _ => inner.length
  | .range inner num_samples =>
      match num_samples with
      | none => inner.length
      | some cap => min cap inner.length
  | .empty len => len

/-- The `interleave_dataset` argument of `prepare_dataset`:
`dataset_config.InterleaveDataConfig | List[str]` (`train.py` line 45). -/
inductive InterleaveArg where
  | config (c : InterleaveDataConfig)
  | names (ns : List String)

/-- The lengths the created source datasets report: `create_dataset` is
outside `src/`, so the length of the dataset built for a given name is an
environment parameter. -/
def LenEnv : Type := String → Nat

/-- The list `data_sets` of source datasets created by `prepare_dataset`
(`train.py` lines 54-57 for the `InterleaveDataConfig` branch, lines 63-65
for the plain-list branch): one `create_dataset(ds, data_args)` per entry. -/
def created_data_sets (lenOf : LenEnv) (interleave_dataset : InterleaveArg)
    (data_args : VoiceDatasetArgs) : List SourceDataset :=
  match interleave_dataset with
  | .config cfg =>
      cfg.datasets_with_multiplier.map
        (fun (ds : DatasetConfigEntry) =>
          SourceDataset.mk ds.dataset data_args (lenOf ds.dataset))
  | .names ns => ns.map (fun ds => SourceDataset.mk ds data_args (lenOf ds))

/-- The `multipliers` chosen by `prepare_dataset` (`train.py` lines 58-60,
67): those of the config, or `[1.0] * len(data_sets)`. -/
def chosen_multipliers (interleave_dataset : InterleaveArg) : List ℚ :=
  match interleave_dataset with
  | .config cfg =>
      cfg.datasets_with_multiplier.map (fun (ds : DatasetConfigEntry) => ds.multiplier)
  | .names ns => ns.map (fun _ => (1 : ℚ))

/-- The `stop_strategy` chosen by `prepare_dataset` (`train.py` lines 61,
66): that of the config, or `StopStrategy.LAST_EXHAUSTED`. -/
def chosen_stop_strategy (interleave_dataset : InterleaveArg) : StopStrategy :=
  match interleave_dataset with
  | .config cfg => cfg.stop_strategy
  | .names _ => StopStrategy.LAST_EXHAUSTED

/-- `prepare_dataset` (`train.py` lines 43-88).  Branches on the type of
`interleave_dataset` (lines 53-67), performs the epoch-length assertion
(lines 69-75; a failed `assert` is an `Except.error`, raised before the
interleaved dataset is constructed), then wraps: `InterleaveDataset` →
`UltravoxDataproc` → `Range`. -/
def prepare_dataset (lenOf : LenEnv) (train_args : TrainConfig)
    (interleave_dataset : InterleaveArg) (data_args : VoiceDatasetArgs)
    (train_on_inputs : Bool) (num_samples : Option Nat := none)
    (include_alt_fields : Bool := false) (enforce_ds_len_epoch : Bool := false) :
    Except String Dataset :=
  let data_sets := created_data_sets lenOf interleave_dataset data_args
  let multipliers := chosen_multipliers interleave_dataset
  let stop_strategy := chosen_stop_strategy interleave_dataset
  let using_epochs := train_args.max_steps = 0
  if using_epochs ∧ enforce_ds_len_epoch = true ∧ ¬ (∀ ds ∈ data_sets, ds.len > 1) then
    Except.error "Dataset has length which is too short for epoch training"
  else
    let interleave := Dataset.interleave data_sets stop_strategy multipliers
    let ds_with_proc := Dataset.dataproc interleave train_on_inputs include_alt_fields
    let limited_ds := Dataset.range ds_with_proc num_samples
    Except.ok limited_ds

/-- The validation-set table built at `train.py` lines 220-224:
`dict([(x, [x]) for x in args.val_sets] + [(f"text_{x}", [x]) for x in args.val_sets])`,
kept as an ordered association list. -/
def val_sets_table (args : TrainConfig) : List (String × List String) :=
  args.val_sets.map (fun x => (x, [x])) ++
    args.val_sets.map (fun x => ("text_" ++ x, [x]))

/-- The `VoiceDatasetArgs` built for the training dataset at `train.py`
lines 231-239. -/
def train_data_args (args : TrainConfig) : VoiceDatasetArgs :=
  { num_prompts := args.num_prompts
    data_dir := args.data_dir
    shuffle := args.shuffle_data
    shuffle_seed := args.shuffle_seed
    max_audio_duration_secs := args.max_audio_duration_secs
    use_mds := args.mds
    mds_batch_size := args.batch_size }

/-- The `VoiceDatasetArgs` built for the validation datasets at `train.py`
lines 244-252. -/
def val_ds_args (args : TrainConfig) : VoiceDatasetArgs :=
  { num_prompts := 1
    split := DatasetSplit.VALIDATION
    data_dir := args.data_dir
    shuffle := false
    max_audio_duration_secs := some 16
    use_mds := args.mds
    mds_batch_size := args.batch_size }

/-- The text-only validation args: `val_ds_args_text = copy.copy(val_ds_args)`
followed by `val_ds_args_text.include_audio = False` (`train.py` lines
253-254). -/
def val_ds_args_text (args : TrainConfig) : VoiceDatasetArgs :=
  { val_ds_args args with include_audio := false }

/-- Python's `str.startswith`, on the character lists underlying Lean
strings (the built-in `String.startsWith` is opaque to kernel reduction). -/
def strStartsWith (s pre : String) : Bool :=
  pre.data.isPrefixOf s.data

/-- The validation-dataset dictionary comprehension at `train.py` lines
255-266: one `prepare_dataset` call per validation-table entry, with
`num_samples = args.val_num_samples` and the text-only args for keys
starting with `"text_"`. -/
def prepareValDatasets (lenOf : LenEnv) (args : TrainConfig)
    (requires_alt_fields : Bool) :
    List (String × List String) → Except String (List (String × Dataset))
  | [] => Except.ok []
  | kv :: rest => do
      let ds ← prepare_dataset lenOf args (InterleaveArg.names kv.2)
          (if strStartsWith kv.1 "text_" then val_ds_args_text args else val_ds_args args)
          args.train_on_inputs (some args.val_num_samples) requires_alt_fields
      let tail ← prepareValDatasets lenOf args requires_alt_fields rest
      pure ((kv.1, ds) :: tail)

/-- The dataset-selection portion of `train` (`train.py` lines 214-275):
builds the validation-set table, prepares the training dataset (with
`num_samples = args.num_samples` and `enforce_ds_len_epoch=True`), and then
either prepares the validation datasets (master rank, with
`num_samples = args.val_num_samples`) or substitutes stand-ins: on a
non-master rank the training dataset becomes
`EmptyDataset(len(train_dataset))` and every validation dataset an
`EmptyDataset()` of length 0 (lines 270-275).

`args.interleave_datasets` (line 227) is not an attribute defined by
`config_base.py` under `src/`; it is taken here as the explicit
`interleave_datasets` argument.  `model.loss_config.requires_alt_fields`
(lines 240, 263) is likewise passed in as `requires_alt_fields`. -/
def trainDatasets (lenOf : LenEnv) (args : TrainConfig)
    (interleave_datasets : InterleaveArg) (requires_alt_fields : Bool)
    (local_rank : Nat) : Except String (Dataset × List (String × Dataset)) := do
  let val_sets := val_sets_table args
  let train_dataset ← prepare_dataset lenOf args interleave_datasets
      (train_data_args args) args.train_on_inputs args.num_samples
      requires_alt_fields true
  if local_rank = 0 then
    let val_datasets ← prepareValDatasets lenOf args requires_alt_fields val_sets
    pure (train_dataset, val_datasets)
  else
    pure (Dataset.empty train_dataset.length,
      val_sets.map (fun kv => (kv.1, Dataset.empty 0)))

/-- The cap of the outermost `Range` wrapper of a dataset, when the dataset
is such a wrapper. -/
def Dataset.topRangeCap : Dataset → Option (Option Nat)
  | .range _ num_samples => some num_samples
  | _ => none

/-- Modelled from the spec: a lazy sample stream, either finite (the list of
samples it yields) or infinite (the sample at each index); `datasets.Range`
and the streams it wraps live outside `src/`. -/
inductive SampleStream (α : Type) where
  | fin (xs : List α)
  | inf (f : Nat → α)

/-- The number of samples a stream yields; `none` means the stream is
infinite. -/
def SampleStream.yieldCount {α : Type} : SampleStream α → Option Nat
  | .fin xs => some xs.length
  | .inf _ => none

/-- Modelled from the spec: the stream of samples yielded by
`datasets.Range` ("if a sample cap is given, terminates the produced
sequence after exactly that many samples have been yielded, counting from
the start of this wrapper's own iteration; if no cap given, passes every
sample through unmodified"). -/
def rangeStream {α : Type} (inner : SampleStream α) (num_samples : Option Nat) :
    SampleStream α :=
  match num_samples with
  | none => inner
  | some cap =>
      match inner with
      | .fin xs => .fin (xs.take cap)
      | .inf f => .fin ((List.range cap).map f)

/-- Modelled from the spec: a linear-congruential pseudo-random generator
state update, standing in for the seeded random generator that drives
weighted selection in `datasets.InterleaveDataset` (outside `src/`). -/
def lcgNext (s : Nat) : Nat :=
  (s * 6364136223846793005 + 1442695040888963407) % 2 ^ 64

/-- Modelled from the spec: weighted choice among sources ("choose the next
source by weighted random selection proportional to `w_i`"): `x` is a draw
in `[0, sum of weights)` and the first source whose cumulative weight
exceeds it is selected. -/
def weightedPick : List ℚ → ℚ → Nat
  | [], _ => 0
  | w :: ws, x => if x < w then 0 else weightedPick ws (x - w) + 1

/-- The draw in `[0, total)` obtained from a PRNG state. -/
def scaledDraw (total : ℚ) (s : Nat) : ℚ :=
  (s % 2 ^ 32 : Nat) * total / 2 ^ 32

/-- Modelled from the spec: the Interleave Engine ("given N source datasets
`D_1..D_n`, weights `w_1..w_n`, and a stop strategy, produces a single lazy
sequence"; `datasets.InterleaveDataset` is outside `src/`).  Each source is
one pass of its samples; restarting an exhausted source re-yields the same
pass. -/
structure InterleaveEngine (α : Type) where
  sources : List (List α)
  multipliers : List ℚ
  stop_strategy : StopStrategy
  seed : Nat

/-- Mutable state of a running Interleave Engine: per-source cursor,
per-source has-been-exhausted flag, and the PRNG state. -/
structure EngineState where
  positions : List Nat
  exhausted : List Bool
  rng : Nat
deriving DecidableEq, Repr

/-- The initial engine state: all cursors at 0, no source exhausted, PRNG
seeded with the engine's seed. -/
def InterleaveEngine.initState {α : Type} (e : InterleaveEngine α) : EngineState :=
  { positions := e.sources.map (fun _ => 0)
    exhausted := e.sources.map (fun _ => false)
    rng := e.seed }

/-- Modelled from the spec: one pull from the Interleave Engine.  Under
LAST_EXHAUSTED the engine terminates once every source has been exhausted at
least once; otherwise a source is chosen by weighted selection, and an
exhausted choice terminates the stream under FIRST_EXHAUSTED or is
restarted (and marked cycled) under LAST_EXHAUSTED / NEVER_STOP.  A chosen
source that is empty ends the stream. -/
def InterleaveEngine.pull {α : Type} (e : InterleaveEngine α) (st : EngineState) :
    Option ((Nat × α) × EngineState) :=
  if e.stop_strategy = StopStrategy.LAST_EXHAUSTED ∧ st.exhausted.all (· = true) ∧
      e.sources.isEmpty = false then
    none
  else
    let i := weightedPick e.multipliers (scaledDraw e.multipliers.sum st.rng)
    let rng' := lcgNext st.rng
    match e.sources.get? i, st.positions.get? i with
    | some src, some p =>
        if h : p < src.length then
          some ((i, src.get ⟨p, h⟩),
            { st with positions := st.positions.set i (p + 1), rng := rng' })
        else
          match e.stop_strategy with
          | StopStrategy.FIRST_EXHAUSTED => none
          | _ =>
              if h0 : 0 < src.length then
                some ((i, src.get ⟨0, h0⟩),
                  { positions := st.positions.set i 1
                    exhausted := st.exhausted.set i true
                    rng := rng' })
              else none
    | _, _ => none

/-- The first `fuel` draws of the engine from a given state: each draw is the
selected source index paired with the sample it yielded. -/
def InterleaveEngine.drawsFrom {α : Type} (e : InterleaveEngine α) :
    EngineState → Nat → List (Nat × α)
  | _, 0 => []
  | st, fuel + 1 =>
      match e.pull st with
      | none => []
      | some (d, st') => d :: e.drawsFrom st' fuel

/-- The first `m` draws of the engine from its initial state. -/
def InterleaveEngine.draws {α : Type} (e : InterleaveEngine α) (m : Nat) :
    List (Nat × α) :=
  e.drawsFrom e.initState m

/-- Modelled from the spec: the engine's seed is "derived from the dataset
arguments' shuffle seed". -/
def engineSeed (data_args : VoiceDatasetArgs) : Nat :=
  data_args.shuffle_seed.toNat

/-- Modelled from the spec: construction of the Interleave Engine for given
sources, weights, stop strategy and dataset arguments, its random seed
derived from the dataset arguments' shuffle seed. -/
def mkInterleaveEngine {α : Type} (sources : List (List α)) (multipliers : List ℚ)
    (stop_strategy : StopStrategy) (data_args : VoiceDatasetArgs) :
    InterleaveEngine α :=
  { sources := sources
    multipliers := multipliers
    stop_strategy := stop_strategy
    seed := engineSeed data_args }

/-- The three `VoiceDatasetArgs` objects created during one call to `train`:
the training args (`train.py` line 231), the validation args (line 244) and
its `copy.copy` (line 253). -/
inductive ArgsId where
  | trainArgs
  | valArgs
  | valArgsText
deriving DecidableEq, Repr

/-- Events involving a `VoiceDatasetArgs` object during one call to `train`:
the object comes into existence (constructor call or `copy.copy`), one of
its fields is assigned after construction, or it is handed to
`datasets.create_dataset` for a named source dataset. -/
inductive ArgsEvent where
  | construct (id : ArgsId)
  | assignField (id : ArgsId) (field : String)
  | passToSource (id : ArgsId) (dataset : String)
deriving DecidableEq, Repr

/-- The ordered trace of `VoiceDatasetArgs` events in one call to `train`
(`train.py` lines 225-266): the training args are constructed (line 231) and
passed, inside `prepare_dataset`, to `create_dataset` for each training
dataset name (lines 55, 64); on the master rank the validation args are
constructed (line 244), copied (line 253), the copy's `include_audio` field
is assigned (line 254), and one of the two objects is passed to
`create_dataset` for each member of each validation set (lines 256-266). -/
def trainArgsTrace (train_names : List String) (args : TrainConfig)
    (is_master : Bool) : List ArgsEvent :=
  ArgsEvent.construct ArgsId.trainArgs ::
    train_names.map (ArgsEvent.passToSource ArgsId.trainArgs) ++
    (if is_master then
      ArgsEvent.construct ArgsId.valArgs ::
        ArgsEvent.construct ArgsId.valArgsText ::
        ArgsEvent.assignField ArgsId.valArgsText "include_audio" ::
        (val_sets_table args).flatMap (fun kv =>
          kv.2.map (ArgsEvent.passToSource
            (if strStartsWith kv.1 "text_" then ArgsId.valArgsText else ArgsId.valArgs)))
    else [])

/-- `true` when the trace contains no post-construction field assignment at
all. -/
def noFieldAssignment (tr : List ArgsEvent) : Bool :=
  tr.all (fun e =>
    match e with
    | ArgsEvent.assignField _ _ => false
    | _ => true)

/-- `true` when no field of an object is assigned at a point of the trace
after that object has been passed to a source dataset; `passed` records
which objects have already been passed. -/
def noAssignAfterPass (passed : ArgsId → Bool) : List ArgsEvent → Bool
  | [] => true
  | ArgsEvent.construct _ :: rest => noAssignAfterPass passed rest
  | ArgsEvent.assignField id _ :: rest =>
      !passed id && noAssignAfterPass passed rest
  | ArgsEvent.passToSource id _ :: rest =>
      noAssignAfterPass (fun i => i = id || passed i) rest

/-- `true` when every post-construction field assignment in the trace is the
`include_audio` assignment on the copied validation args. -/
def onlyIncludeAudioAssigned (tr : List ArgsEvent) : Bool :=
  tr.all (fun e =>
    match e with
    | ArgsEvent.assignField id f =>
        id = ArgsId.valArgsText && f = "include_audio"
    | _ => true)


lemma takeWhile_append_no_eq (name value : List Char) (h : '=' ∉ name) :
    (name ++ '=' :: value).takeWhile (fun c => c ≠ '=') = name := by
  induction name with
  | nil => simp
  | cons c cs ih =>
      have hc : c ≠ '=' := fun hc => h (hc ▸ List.mem_cons_self c cs)
      have hcs : '=' ∉ cs := fun hm => h (List.mem_cons_of_mem c hm)
      rw [List.cons_append, List.takeWhile_cons,
        if_pos (show (fun c => decide ¬c = '=') c = true by simp [hc]), ih hcs]

lemma dropWhile_append_no_eq (name value : List Char) (h : '=' ∉ name) :
    (name ++ '=' :: value).dropWhile (fun c => c ≠ '=') = '=' :: value := by
  induction name with
  | nil => simp
  | cons c cs ih =>
      have hc : c ≠ '=' := fun hc => h (hc ▸ List.mem_cons_self c cs)
      have hcs : '=' ∉ cs := fun hm => h (List.mem_cons_of_mem c hm)
      rw [List.cons_append, List.dropWhile_cons,
        if_pos (show (fun c => decide ¬c = '=') c = true by simp [hc]), ih hcs]

lemma takeWhile_all_no_eq (name : List Char) (h : '=' ∉ name) :
    name.takeWhile (fun c => c ≠ '=') = name := by
  induction name with
  | nil => simp
  | cons c cs ih =>
      have hc : c ≠ '=' := fun hc => h (hc ▸ List.mem_cons_self c cs)
      have hcs : '=' ∉ cs := fun hm => h (List.mem_cons_of_mem c hm)
      rw [List.takeWhile_cons,
        if_pos (show (fun c => decide ¬c = '=') c = true by simp [hc]), ih hcs]

lemma dropWhile_all_no_eq (name : List Char) (h : '=' ∉ name) :
    name.dropWhile (fun c => c ≠ '=') = [] := by
  induction name with
  | nil => simp
  | cons c cs ih =>
      have hc : c ≠ '=' := fun hc => h (hc ▸ List.mem_cons_self c cs)
      have hcs : '=' ∉ cs := fun hm => h (List.mem_cons_of_mem c hm)
      rw [List.dropWhile_cons,
        if_pos (show (fun c => decide ¬c = '=') c = true by simp [hc]), ih hcs]

/-- C8: `fix_hyphens` rewrites hyphens to underscores only inside the
option-name segment between a leading `--` and the first `=` (or the end of
the string when there is no `=`), leaves the value segment untouched, and
returns any string that does not start with `--` unchanged. -/
theorem fix_hyphens_spec :
    (∀ arg : List Char, (∀ rest, arg ≠ '-' :: '-' :: rest) → fix_hyphens arg = arg) ∧
    (∀ name value : List Char, '=' ∉ name →
      fix_hyphens ('-' :: '-' :: (name ++ '=' :: value)) =
        '-' :: '-' :: (name.map (fun c => if c = '-' then '_' else c) ++ '=' :: value)) ∧
    (∀ name : List Char, '=' ∉ name →
      fix_hyphens ('-' :: '-' :: name) =
        '-' :: '-' :: name.map (fun c => if c = '-' then '_' else c)) := by
  refine ⟨?_, ?_, ?_⟩
  · intro arg h
    match arg with
    | [] => rfl
    | [a] =>
        by_cases ha : a = '-'
        · subst ha; rfl
        · simp [fix_hyphens, ha]
    | a :: b :: rest =>
        by_cases ha : a = '-'
        · by_cases hb : b = '-'
          · exact absurd rfl (ha ▸ hb ▸ h rest)
          · simp [fix_hyphens, ha, hb]
        · simp [fix_hyphens, ha]
  · intro name value h
    simp only [fix_hyphens]
    rw [takeWhile_append_no_eq name value h, dropWhile_append_no_eq name value h]
    cases name with
    | nil => simp
    | cons c cs => simp
  · intro name h
    simp only [fix_hyphens]
    rw [takeWhile_all_no_eq name h, dropWhile_all_no_eq name h]
    cases name with
    | nil => simp
    | cons c cs => simp


/-- Witness for C8 at a concrete argument string. -/
theorem fix_hyphens_spec_witness :
    ('=' ∉ ['f', 'o', 'o', '-', 'b', 'a', 'r']) ∧
    fix_hyphens ('-' :: '-' :: (['f', 'o', 'o', '-', 'b', 'a', 'r'] ++ '=' :: ['b', '-', 'z'])) =
      '-' :: '-' ::
        (['f', 'o', 'o', '-', 'b', 'a', 'r'].map (fun c => if c = '-' then '_' else c) ++
          '=' :: ['b', '-', 'z']) :=
  ⟨by decide, fix_hyphens_spec.2.1 ['f', 'o', 'o', '-', 'b', 'a', 'r'] ['b', '-', 'z'] (by decide)⟩


lemma applyDataDicts_preserves (c : TrainConfig) :
    c.applyDataDicts.data_type = c.data_type ∧
    c.applyDataDicts.device = c.device ∧
    c.applyDataDicts.optimizer = c.optimizer := by
  unfold TrainConfig.applyDataDicts
  cases c.data_dicts with
  | none => exact ⟨rfl, rfl, rfl⟩
  | some dicts =>
      by_cases h : dicts.isEmpty <;> simp [h]

lemma resolveDevice_preserves (env : SysEnv) (c : TrainConfig) :
    (c.resolveDevice env).data_type = c.data_type ∧
    (c.resolveDevice env).optimizer = c.optimizer ∧
    (c.resolveDevice env).data_sets = c.data_sets := by
  unfold TrainConfig.resolveDevice
  by_cases h : (c.device = "cuda" && !env.cuda_available) = true <;> simp [h]

lemma coerceForDevice_spec (c : TrainConfig) :
    c.coerceForDevice.device = c.device ∧
    c.coerceForDevice.data_sets = c.data_sets ∧
    (c.device ≠ "cuda" →
      c.coerceForDevice.data_type ≠ "bfloat16" ∧
      c.coerceForDevice.optimizer ≠ "adamw_bnb_8bit") := by
  unfold TrainConfig.coerceForDevice
  by_cases hdev : c.device ≠ "cuda"
  · simp only [if_pos hdev]
    by_cases hdt : c.data_type = "bfloat16" <;>
      by_cases hopt : c.optimizer = "adamw_bnb_8bit" <;>
        simp [hdt, hopt]
  · simp [if_neg hdev]
    intro h
    exact absurd h hdev

/-- C9: after `__post_init__`, a config whose resolved device is not
`"cuda"` never carries `data_type = "bfloat16"` nor
`optimizer = "adamw_bnb_8bit"`; and any `data_type` outside
{bfloat16, float16, float32} makes `__post_init__` fail its assertion. -/
theorem post_init_device_coercions :
    (∀ (env : SysEnv) (c c' : TrainConfig),
        TrainConfig.post_init env c = Except.ok c' →
        c'.device ≠ "cuda" →
        c'.data_type ≠ "bfloat16" ∧ c'.optimizer ≠ "adamw_bnb_8bit") ∧
    (∀ (env : SysEnv) (c : TrainConfig),
        c.data_type ∉ (["bfloat16", "float16", "float32"] : List String) →
        ∃ msg, TrainConfig.post_init env c = Except.error msg) := by
  constructor
  · intro env c c' hok hdev
    unfold TrainConfig.post_init at hok
    split at hok
    · exact absurd hok (by simp)
    · have h := coerceForDevice_spec (c.applyDataDicts.resolveDevice env)
      have hc' : c' = (c.applyDataDicts.resolveDevice env).coerceForDevice :=
        (Except.ok.inj hok).symm
      subst hc'
      exact h.2.2 (h.1 ▸ hdev)
  · intro env c hne
    have hcond :
        (!(c.applyDataDicts.data_type ∈ ["bfloat16", "float16", "float32"] : Bool)) = true := by
      rw [(applyDataDicts_preserves c).1]
      simpa using hne
    exact ⟨"assert self.data_type in [bfloat16, float16, float32]",
      by unfold TrainConfig.post_init; rw [if_pos hcond]⟩

/-- Witness for C9: on a machine without CUDA, the default config (device
`"cuda"`, dtype `"bfloat16"`) resolves to a non-CUDA device with a coerced
dtype; and a config with `data_type = "float64"` fails the assertion. -/
theorem post_init_device_coercions_witness :
    (TrainConfig.post_init ⟨false, false⟩ {} =
        Except.ok { device := "cpu", data_type := "float32" } ∧
      ("cpu" : String) ≠ "cuda" ∧
      (({ device := "cpu", data_type := "float32" } : TrainConfig).data_type ≠ "bfloat16" ∧
        ({ device := "cpu", data_type := "float32" } : TrainConfig).optimizer ≠ "adamw_bnb_8bit")) ∧
    (({ data_type := "float64" } : TrainConfig).data_type ∉
        (["bfloat16", "float16", "float32"] : List String) ∧
      ∃ msg, TrainConfig.post_init ⟨true, false⟩ { data_type := "float64" } =
        Except.error msg) :=
  ⟨⟨rfl, by decide,
      post_init_device_coercions.1 ⟨false, false⟩ {} _ rfl (by decide)⟩,
    ⟨by decide, post_init_device_coercions.2 ⟨true, false⟩ _ (by decide)⟩⟩



lemma resolveDevice_data_sets (env : SysEnv) (c : TrainConfig) :
    (c.resolveDevice env).data_sets = c.data_sets := by
  unfold TrainConfig.resolveDevice
  by_cases h : (c.device = "cuda" && !env.cuda_available) = true <;> simp [h]

lemma coerceForDevice_data_sets (c : TrainConfig) :
    c.coerceForDevice.data_sets = c.data_sets := by
  unfold TrainConfig.coerceForDevice
  by_cases hdev : c.device ≠ "cuda"
  · simp only [if_pos hdev]
    by_cases hdt : c.data_type = "bfloat16" <;>
      by_cases hopt : c.optimizer = "adamw_bnb_8bit" <;> simp [hdt, hopt]
  · simp [if_neg hdev]

lemma post_init_ok_data_sets (env : SysEnv) (c c' : TrainConfig)
    (hok : TrainConfig.post_init env c = Except.ok c') :
    c'.data_sets = c.applyDataDicts.data_sets := by
  unfold TrainConfig.post_init at hok
  split at hok
  · exact absurd hok (by simp)
  · have hc' : c' = (c.applyDataDicts.resolveDevice env).coerceForDevice :=
      (Except.ok.inj hok).symm
    rw [hc', coerceForDevice_data_sets, resolveDevice_data_sets]

/-- C10: `__post_init__` converts every entry of a non-empty `data_dicts`
into a `DataDictConfig` and appends them, in order, to the end of
`data_sets`; a `None` or empty `data_dicts` leaves `data_sets` unchanged. -/
theorem post_init_data_dicts_extend :
    (∀ (env : SysEnv) (c c' : TrainConfig) (dicts : List RawDict),
        c.data_dicts = some dicts → dicts ≠ [] →
        TrainConfig.post_init env c = Except.ok c' →
        c'.data_sets =
          c.data_sets ++ dicts.map (fun d => DataSetEntry.dict (DataDictConfig.ofDict d))) ∧
    (∀ (env : SysEnv) (c c' : TrainConfig),
        (c.data_dicts = none ∨ c.data_dicts = some []) →
        TrainConfig.post_init env c = Except.ok c' →
        c'.data_sets = c.data_sets) := by
  constructor
  · intro env c c' dicts hdicts hne hok
    rw [post_init_ok_data_sets env c c' hok]
    unfold TrainConfig.applyDataDicts
    rw [hdicts]
    simp [List.isEmpty_iff, hne]
  · intro env c c' hdicts hok
    rw [post_init_ok_data_sets env c c' hok]
    unfold TrainConfig.applyDataDicts
    rcases hdicts with h | h <;> simp [h]

/-- Witness for C10 at a concrete config with one embedded dict spec. -/
theorem post_init_data_dicts_extend_witness :
    (({ data_sets := [DataSetEntry.name "boolq"],
        data_dicts := some [[("path", "x")]] } : TrainConfig).data_dicts =
          some [[("path", "x")]] ∧
      ([[("path", "x")]] : List RawDict) ≠ [] ∧
      TrainConfig.post_init ⟨true, true⟩
          { data_sets := [DataSetEntry.name "boolq"],
            data_dicts := some [[("path", "x")]] } =
        Except.ok
          { data_sets := [DataSetEntry.name "boolq",
              DataSetEntry.dict (DataDictConfig.ofDict [("path", "x")])],
            data_dicts := some [[("path", "x")]] }) ∧
    ({ data_sets := [DataSetEntry.name "boolq",
          DataSetEntry.dict (DataDictConfig.ofDict [("path", "x")])],
        data_dicts := some [[("path", "x")]] } : TrainConfig).data_sets =
      [DataSetEntry.name "boolq"] ++
        ([[("path", "x")]] : List RawDict).map
          (fun d => DataSetEntry.dict (DataDictConfig.ofDict d)) :=
  ⟨⟨rfl, by simp, rfl⟩,
    post_init_data_dicts_extend.1 ⟨true, true⟩
      { data_sets := [DataSetEntry.name "boolq"], data_dicts := some [[("path", "x")]] }
      _ [[("path", "x")]] rfl (by simp) rfl⟩



lemma prepare_dataset_ok_shape (lenOf : LenEnv) (train_args : TrainConfig)
    (il : InterleaveArg) (data_args : VoiceDatasetArgs) (toi : Bool)
    (cap : Option Nat) (iaf enf : Bool) (d : Dataset)
    (hok : prepare_dataset lenOf train_args il data_args toi cap iaf enf = Except.ok d) :
    d = Dataset.range
          (Dataset.dataproc
            (Dataset.interleave (created_data_sets lenOf il data_args)
              (chosen_stop_strategy il) (chosen_multipliers il)) toi iaf) cap := by
  simp only [prepare_dataset] at hok
  split at hok
  · exact absurd hok (by simp)
  · exact (Except.ok.inj hok).symm

/-- C1: every dataset returned by `prepare_dataset` is composed as
Range ∘ Dataproc ∘ Interleave over the created source datasets: the sources
are merged by the interleaver, its output processed, and the sample cap
applied downstream of both. -/
theorem prepare_dataset_pipeline_order (lenOf : LenEnv) (train_args : TrainConfig)
    (il : InterleaveArg) (data_args : VoiceDatasetArgs) (toi : Bool)
    (cap : Option Nat) (iaf enf : Bool) (d : Dataset)
    (hok : prepare_dataset lenOf train_args il data_args toi cap iaf enf = Except.ok d) :
    d = Dataset.range
          (Dataset.dataproc
            (Dataset.interleave (created_data_sets lenOf il data_args)
              (chosen_stop_strategy il) (chosen_multipliers il)) toi iaf) cap :=
  prepare_dataset_ok_shape lenOf train_args il data_args toi cap iaf enf d hok

/-- Witness for C1 at a concrete invocation. -/
theorem prepare_dataset_pipeline_order_witness :
    prepare_dataset (fun _ => 5) { max_steps := 10 } (InterleaveArg.names ["a", "b"])
        {} true (some 7) false true =
      Except.ok
        (Dataset.range
          (Dataset.dataproc
            (Dataset.interleave [⟨"a", {}, 5⟩, ⟨"b", {}, 5⟩]
              StopStrategy.LAST_EXHAUSTED [1, 1]) true false) (some 7)) ∧
    Dataset.range
        (Dataset.dataproc
          (Dataset.interleave [⟨"a", {}, 5⟩, ⟨"b", {}, 5⟩]
            StopStrategy.LAST_EXHAUSTED [1, 1]) true false) (some 7) =
      Dataset.range
        (Dataset.dataproc
          (Dataset.interleave
            (created_data_sets (fun _ => 5) (InterleaveArg.names ["a", "b"]) {})
            (chosen_stop_strategy (InterleaveArg.names ["a", "b"]))
            (chosen_multipliers (InterleaveArg.names ["a", "b"]))) true false) (some 7) :=
  ⟨rfl,
    prepare_dataset_pipeline_order (fun _ => 5) { max_steps := 10 }
      (InterleaveArg.names ["a", "b"]) {} true (some 7) false true _ rfl⟩

/-- C2: on a plain list of dataset names, `prepare_dataset` interleaves with
stop strategy LAST_EXHAUSTED and multiplier 1.0 for every source; and the
`TrainConfig.stop_strategy` field defaults to LAST_EXHAUSTED. -/
theorem prepare_dataset_list_defaults :
    (∀ (lenOf : LenEnv) (train_args : TrainConfig) (names : List String)
        (data_args : VoiceDatasetArgs) (toi : Bool) (cap : Option Nat)
        (iaf enf : Bool) (d : Dataset),
        prepare_dataset lenOf train_args (InterleaveArg.names names) data_args
            toi cap iaf enf = Except.ok d →
        d = Dataset.range
              (Dataset.dataproc
                (Dataset.interleave
                  (names.map (fun n => SourceDataset.mk n data_args (lenOf n)))
                  StopStrategy.LAST_EXHAUSTED
                  (List.replicate names.length (1 : ℚ))) toi iaf) cap) ∧
    ({} : TrainConfig).stop_strategy = StopStrategy.LAST_EXHAUSTED := by
  constructor
  · intro lenOf train_args names data_args toi cap iaf enf d hok
    rw [prepare_dataset_ok_shape lenOf train_args _ data_args toi cap iaf enf d hok]
    simp [created_data_sets, chosen_stop_strategy, chosen_multipliers, List.map_const']
  · rfl

/-- Witness for C2 at a concrete invocation. -/
theorem prepare_dataset_list_defaults_witness :
    prepare_dataset (fun _ => 3) {} (InterleaveArg.names ["x", "y", "z"]) {} false
        none true false =
      Except.ok
        (Dataset.range
          (Dataset.dataproc
            (Dataset.interleave [⟨"x", {}, 3⟩, ⟨"y", {}, 3⟩, ⟨"z", {}, 3⟩]
              StopStrategy.LAST_EXHAUSTED [1, 1, 1]) false true) none) ∧
    Dataset.range
        (Dataset.dataproc
          (Dataset.interleave [⟨"x", {}, 3⟩, ⟨"y", {}, 3⟩, ⟨"z", {}, 3⟩]
            StopStrategy.LAST_EXHAUSTED [1, 1, 1]) false true) none =
      Dataset.range
        (Dataset.dataproc
          (Dataset.interleave
            (["x", "y", "z"].map (fun n => SourceDataset.mk n {} ((fun _ => 3) n)))
            StopStrategy.LAST_EXHAUSTED
            (List.replicate (["x", "y", "z"] : List String).length (1 : ℚ)))
          false true) none :=
  ⟨rfl,
    prepare_dataset_list_defaults.1 (fun _ => 3) {} ["x", "y", "z"] {} false none
      true false _ rfl⟩

/-- C3: with `enforce_ds_len_epoch`, `prepare_dataset` fails with an
assertion error exactly when epoch-based training is requested
(`max_steps == 0`) and some created source dataset reports a length of at
most 1; with `max_steps` nonzero or enforcement off it never fails. -/
theorem prepare_dataset_epoch_length_check (lenOf : LenEnv)
    (train_args : TrainConfig) (il : InterleaveArg) (data_args : VoiceDatasetArgs)
    (toi : Bool) (cap : Option Nat) (iaf enf : Bool) :
    (∃ msg, prepare_dataset lenOf train_args il data_args toi cap iaf enf =
        Except.error msg) ↔
      (train_args.max_steps = 0 ∧ enf = true ∧
        ∃ ds ∈ created_data_sets lenOf il data_args, ds.len ≤ 1) := by
  simp only [prepare_dataset]
  split
  next h =>
    obtain ⟨h1, h2, h3⟩ := h
    push_neg at h3
    constructor
    · intro _
      refine ⟨h1, h2, ?_⟩
      obtain ⟨ds, hds, hlen⟩ := h3
      exact ⟨ds, hds, hlen⟩
    · intro _
      exact ⟨_, rfl⟩
  next h =>
    constructor
    · rintro ⟨msg, hmsg⟩
      exact absurd hmsg (by simp)
    · rintro ⟨h1, h2, ds, hds, hlen⟩
      exact absurd ⟨h1, h2, by push_neg; exact ⟨ds, hds, hlen⟩⟩ h

/-- Witness for C3: a source of length 1 under epoch training triggers
the assertion error. -/
theorem prepare_dataset_epoch_length_check_witness :
    (∃ msg, prepare_dataset (fun _ => 1) {} (InterleaveArg.names ["a"]) {} false
        none false true = Except.error msg) ∧
    (({} : TrainConfig).max_steps = 0 ∧ true = true ∧
      ∃ ds ∈ created_data_sets (fun _ => 1) (InterleaveArg.names ["a"]) {},
        ds.len ≤ 1) :=
  have h : ({} : TrainConfig).max_steps = 0 ∧ true = true ∧
      ∃ ds ∈ created_data_sets (fun _ => 1) (InterleaveArg.names ["a"]) {},
        ds.len ≤ 1 :=
    ⟨rfl, rfl, ⟨⟨"a", {}, 1⟩, by simp [created_data_sets], by decide⟩⟩
  ⟨(prepare_dataset_epoch_length_check (fun _ => 1) {} (InterleaveArg.names ["a"])
      {} false none false true).mpr h, h⟩



/-- C4: on a non-master rank (`LOCAL_RANK != 0`), `train` replaces the
training dataset with an `EmptyDataset` whose reported length equals that of
the real prepared training dataset, and every validation dataset with a
zero-length `EmptyDataset`; no validation dataset is prepared on such a
rank. -/
theorem train_nonmaster_standins (lenOf : LenEnv) (args : TrainConfig)
    (il : InterleaveArg) (raf : Bool) (local_rank : Nat) (d : Dataset)
    (hrank : local_rank ≠ 0)
    (hok : prepare_dataset lenOf args il (train_data_args args)
        args.train_on_inputs args.num_samples raf true = Except.ok d) :
    trainDatasets lenOf args il raf local_rank =
      Except.ok (Dataset.empty d.length,
        (val_sets_table args).map (fun kv => (kv.1, Dataset.empty 0))) ∧
    (Dataset.empty d.length).length = d.length := by
  constructor
  · simp only [trainDatasets]
    rw [hok]
    simp [Bind.bind, Except.bind, pure, Except.pure, hrank]
  · rfl

/-- Witness for C4 at a concrete rank-1 invocation. -/
theorem train_nonmaster_standins_witness :
    (1 : Nat) ≠ 0 ∧
    prepare_dataset (fun _ => 5) { val_sets := ["v"], max_steps := 4 }
        (InterleaveArg.names ["a"])
        (train_data_args { val_sets := ["v"], max_steps := 4 })
        false none false true =
      Except.ok
        (Dataset.range
          (Dataset.dataproc
            (Dataset.interleave
              [⟨"a", train_data_args { val_sets := ["v"], max_steps := 4 }, 5⟩]
              StopStrategy.LAST_EXHAUSTED [1]) false false) none) ∧
    trainDatasets (fun _ => 5) { val_sets := ["v"], max_steps := 4 }
        (InterleaveArg.names ["a"]) false 1 =
      Except.ok
        (Dataset.empty
          (Dataset.range
            (Dataset.dataproc
              (Dataset.interleave
                [⟨"a", train_data_args { val_sets := ["v"], max_steps := 4 }, 5⟩]
                StopStrategy.LAST_EXHAUSTED [1]) false false) none).length,
          (val_sets_table { val_sets := ["v"], max_steps := 4 }).map
            (fun kv => (kv.1, Dataset.empty 0))) :=
  ⟨by decide, rfl,
    (train_nonmaster_standins (fun _ => 5) { val_sets := ["v"], max_steps := 4 }
      (InterleaveArg.names ["a"]) false 1 _ (by decide) rfl).1⟩



lemma prepareValDatasets_mem_cap (lenOf : LenEnv) (args : TrainConfig) (raf : Bool) :
    ∀ (kvs : List (String × List String)) (out : List (String × Dataset)),
      prepareValDatasets lenOf args raf kvs = Except.ok out →
      ∀ kv ∈ out, Dataset.topRangeCap kv.2 = some (some args.val_num_samples) := by
  intro kvs
  induction kvs with
  | nil =>
      intro out h kv hkv
      simp only [prepareValDatasets] at h
      obtain rfl := Except.ok.inj h
      simp at hkv
  | cons hd tl ih =>
      intro out h kv hkv
      simp only [prepareValDatasets] at h
      cases hprep : prepare_dataset lenOf args (InterleaveArg.names hd.2)
          (if strStartsWith hd.1 "text_" then val_ds_args_text args else val_ds_args args)
          args.train_on_inputs (some args.val_num_samples) raf with
      | error e => rw [hprep] at h; simp [Bind.bind, Except.bind] at h
      | ok ds =>
          rw [hprep] at h
          cases htail : prepareValDatasets lenOf args raf tl with
          | error e =>
              rw [htail] at h; simp [Bind.bind, Except.bind] at h
          | ok tail =>
              rw [htail] at h
              simp only [Bind.bind, Except.bind, pure, Except.pure] at h
              obtain rfl := Except.ok.inj h
              cases hkv with
              | head =>
                  show Dataset.topRangeCap ds = some (some args.val_num_samples)
                  rw [prepare_dataset_ok_shape _ _ _ _ _ _ _ _ _ hprep]
                  rfl
              | tail _ hmem => exact ih tail htail kv hmem

/-- C6: the Range Limiter yields exactly `min(K, L)` samples from a finite
inner stream of length `L` under cap `K`, exactly `K` from an infinite inner
stream, and passes every sample through unmodified when no cap is given; in
`train`, the cap is `num_samples` for the training set and
`val_num_samples` for each validation set. -/
theorem range_limiter_caps :
    (∀ (α : Type) (K : Nat) (xs : List α),
        (rangeStream (SampleStream.fin xs) (some K)).yieldCount =
          some (min K xs.length)) ∧
    (∀ (α : Type) (K : Nat) (f : Nat → α),
        (rangeStream (SampleStream.inf f) (some K)).yieldCount = some K) ∧
    (∀ (α : Type) (s : SampleStream α), rangeStream s none = s) ∧
    (∀ (lenOf : LenEnv) (args : TrainConfig) (il : InterleaveArg) (raf : Bool)
        (td : Dataset) (vds : List (String × Dataset)),
        trainDatasets lenOf args il raf 0 = Except.ok (td, vds) →
        td.topRangeCap = some args.num_samples ∧
        ∀ kv ∈ vds, Dataset.topRangeCap kv.2 = some (some args.val_num_samples)) := by
  refine ⟨?_, ?_, ?_, ?_⟩
  · intro α K xs
    simp [rangeStream, SampleStream.yieldCount]
  · intro α K f
    simp [rangeStream, SampleStream.yieldCount]
  · intro α s
    rfl
  · intro lenOf args il raf td vds hok
    simp only [trainDatasets] at hok
    cases hprep : prepare_dataset lenOf args il (train_data_args args)
        args.train_on_inputs args.num_samples raf true with
    | error e => rw [hprep] at hok; simp [Bind.bind, Except.bind] at hok
    | ok td0 =>
        rw [hprep] at hok
        simp only [Bind.bind, Except.bind, if_pos rfl] at hok
        cases hval : prepareValDatasets lenOf args raf (val_sets_table args) with
        | error e => rw [hval] at hok; simp at hok
        | ok lst =>
            rw [hval] at hok
            simp only [pure, Except.pure] at hok
            obtain ⟨rfl, rfl⟩ := Prod.mk.injEq .. ▸ Except.ok.inj hok
            constructor
            · rw [prepare_dataset_ok_shape _ _ _ _ _ _ _ _ _ hprep]
              rfl
            · exact prepareValDatasets_mem_cap lenOf args raf _ _ hval

/-- Witness for C6 at a concrete master-rank invocation. -/
theorem range_limiter_caps_witness :
    trainDatasets (fun _ => 5) { val_sets := ["v"], num_samples := some 3 }
        (InterleaveArg.names ["a"]) false 0 =
      Except.ok
        (Dataset.range
          (Dataset.dataproc
            (Dataset.interleave
              [⟨"a", train_data_args { val_sets := ["v"], num_samples := some 3 }, 5⟩]
              StopStrategy.LAST_EXHAUSTED [1]) false false) (some 3),
          [("v",
            Dataset.range
              (Dataset.dataproc
                (Dataset.interleave
                  [⟨"v", val_ds_args { val_sets := ["v"], num_samples := some 3 }, 5⟩]
                  StopStrategy.LAST_EXHAUSTED [1]) false false) (some 100)),
           ("text_v",
            Dataset.range
              (Dataset.dataproc
                (Dataset.interleave
                  [⟨"v", val_ds_args_text { val_sets := ["v"], num_samples := some 3 }, 5⟩]
                  StopStrategy.LAST_EXHAUSTED [1]) false false) (some 100))]) ∧
    (Dataset.topRangeCap
        (Dataset.range
          (Dataset.dataproc
            (Dataset.interleave
              [⟨"a", train_data_args { val_sets := ["v"], num_samples := some 3 }, 5⟩]
              StopStrategy.LAST_EXHAUSTED [1]) false false) (some 3)) =
        some ({ val_sets := ["v"], num_samples := some 3 } : TrainConfig).num_samples ∧
      ∀ kv ∈ [(("v" : String),
            Dataset.range
              (Dataset.dataproc
                (Dataset.interleave
                  [⟨"v", val_ds_args { val_sets := ["v"], num_samples := some 3 }, 5⟩]
                  StopStrategy.LAST_EXHAUSTED [1]) false false) (some 100)),
           (("text_v" : String),
            Dataset.range
              (Dataset.dataproc
                (Dataset.interleave
                  [⟨"v", val_ds_args_text { val_sets := ["v"], num_samples := some 3 }, 5⟩]
                  StopStrategy.LAST_EXHAUSTED [1]) false false) (some 100))],
        Dataset.topRangeCap kv.2 =
          some (some ({ val_sets := ["v"], num_samples := some 3 } : TrainConfig).val_num_samples)) :=
  ⟨rfl,
    range_limiter_caps.2.2.2 (fun _ => 5) { val_sets := ["v"], num_samples := some 3 }
      (InterleaveArg.names ["a"]) false _ _ rfl⟩



/-- C7: two Interleave Engines constructed with identical sources, weights,
stop strategy and seed produce identical (source, sample) draw sequences for
every draw count; and the selection is driven by a seed derived from the
dataset arguments' shuffle seed, so engines built from dataset arguments
agreeing on `shuffle_seed` draw identically. -/
theorem interleave_reproducibility :
    (∀ (α : Type) (e1 e2 : InterleaveEngine α),
        e1.sources = e2.sources → e1.multipliers = e2.multipliers →
        e1.stop_strategy = e2.stop_strategy → e1.seed = e2.seed →
        ∀ m, e1.draws m = e2.draws m) ∧
    (∀ (α : Type) (sources : List (List α)) (multipliers : List ℚ)
        (stop : StopStrategy) (a1 a2 : VoiceDatasetArgs),
        a1.shuffle_seed = a2.shuffle_seed →
        ∀ m, (mkInterleaveEngine sources multipliers stop a1).draws m =
          (mkInterleaveEngine sources multipliers stop a2).draws m) := by
  constructor
  · intro α e1 e2 hs hm hst hseed m
    cases e1
    cases e2
    simp only at hs hm hst hseed
    subst hs
    subst hm
    subst hst
    subst hseed
    rfl
  · intro α sources multipliers stop a1 a2 hseed m
    unfold mkInterleaveEngine engineSeed
    rw [hseed]

/-- Witness for C7: engines built from dataset arguments that differ in
`num_prompts` but share the shuffle seed draw identically. -/
theorem interleave_reproducibility_witness :
    ({ num_prompts := 1 } : VoiceDatasetArgs).shuffle_seed =
        ({ num_prompts := 7 } : VoiceDatasetArgs).shuffle_seed ∧
    (mkInterleaveEngine [[10, 11], [20]] [1, 2] StopStrategy.NEVER_STOP
        { num_prompts := 1 }).draws 5 =
      (mkInterleaveEngine [[10, 11], [20]] [1, 2] StopStrategy.NEVER_STOP
        { num_prompts := 7 }).draws 5 :=
  ⟨rfl,
    interleave_reproducibility.2 Nat [[10, 11], [20]] [1, 2]
      StopStrategy.NEVER_STOP { num_prompts := 1 } { num_prompts := 7 } rfl 5⟩



lemma noAssignAfterPass_congr (p q : ArgsId → Bool) (h : ∀ i, p i = q i) :
    ∀ tr, noAssignAfterPass p tr = noAssignAfterPass q tr := by
  intro tr
  induction tr generalizing p q with
  | nil => rfl
  | cons e rest ih =>
      cases e with
      | construct _ => exact ih p q h
      | assignField id f => simp [noAssignAfterPass, h id, ih p q h]
      | passToSource id ds =>
          simp only [noAssignAfterPass]
          exact ih _ _ (fun i => by simp [h i])

lemma noAssignAfterPass_of_noAssign (tr : List ArgsEvent)
    (h : noFieldAssignment tr = true) :
    ∀ p, noAssignAfterPass p tr = true := by
  induction tr with
  | nil => intro p; rfl
  | cons e rest ih =>
      intro p
      cases e with
      | construct _ =>
          exact ih (by simpa [noFieldAssignment] using h) p
      | assignField id f => simp [noFieldAssignment] at h
      | passToSource id ds =>
          exact ih (by simpa [noFieldAssignment] using h) _

lemma noAssignAfterPass_passBlock (names : List String) (a : ArgsId)
    (rest : List ArgsEvent) :
    ∀ p : ArgsId → Bool, noAssignAfterPass p rest = true →
      noAssignAfterPass (fun i => i = a || p i) rest = true →
      noAssignAfterPass p (names.map (ArgsEvent.passToSource a) ++ rest) = true := by
  induction names with
  | nil => intro p h1 _; simpa using h1
  | cons n ns ih =>
      intro p h1 h2
      simp only [List.map_cons, List.cons_append, noAssignAfterPass]
      refine ih _ h2 ?_
      rw [noAssignAfterPass_congr _ (fun i => i = a || p i)
        (fun i => by cases hia : decide (i = a) <;> simp [hia])]
      exact h2

lemma valPasses_noFieldAssignment (kvs : List (String × List String)) :
    noFieldAssignment
      (kvs.flatMap (fun kv =>
        kv.2.map (ArgsEvent.passToSource
          (if strStartsWith kv.1 "text_" then ArgsId.valArgsText
           else ArgsId.valArgs)))) = true := by
  simp only [noFieldAssignment, List.all_eq_true]
  intro e he
  rw [List.mem_flatMap] at he
  obtain ⟨kv, _, hm⟩ := he
  obtain ⟨n, _, rfl⟩ := List.mem_map.mp hm
  rfl

lemma masterTail_noAssignAfterPass (args : TrainConfig) (p : ArgsId → Bool)
    (hp : p ArgsId.valArgsText = false) :
    noAssignAfterPass p
      (ArgsEvent.construct ArgsId.valArgs ::
        ArgsEvent.construct ArgsId.valArgsText ::
        ArgsEvent.assignField ArgsId.valArgsText "include_audio" ::
        (val_sets_table args).flatMap (fun kv =>
          kv.2.map (ArgsEvent.passToSource
            (if strStartsWith kv.1 "text_" then ArgsId.valArgsText
             else ArgsId.valArgs)))) = true := by
  show (!p ArgsId.valArgsText &&
      noAssignAfterPass p
        ((val_sets_table args).flatMap (fun kv =>
          kv.2.map (ArgsEvent.passToSource
            (if strStartsWith kv.1 "text_" then ArgsId.valArgsText
             else ArgsId.valArgs))))) = true
  rw [hp, noAssignAfterPass_of_noAssign _ (valPasses_noFieldAssignment _) p]
  rfl

/-- C5 (amended): in `train`, no `VoiceDatasetArgs` object has a field
assigned after it has been passed to a source dataset, and the only
post-construction field assignment of the whole run is the
`include_audio = False` assignment on the copied validation args
(`train.py` line 254). -/
theorem args_mutation_before_any_pass (train_names : List String)
    (args : TrainConfig) (is_master : Bool) :
    noAssignAfterPass (fun _ => false)
        (trainArgsTrace train_names args is_master) = true ∧
    onlyIncludeAudioAssigned (trainArgsTrace train_names args is_master) = true := by
  constructor
  · cases is_master with
    | false =>
        exact noAssignAfterPass_passBlock train_names ArgsId.trainArgs []
          (fun _ => false) rfl rfl
    | true =>
        exact noAssignAfterPass_passBlock train_names ArgsId.trainArgs _
          (fun _ => false)
          (masterTail_noAssignAfterPass args _ rfl)
          (masterTail_noAssignAfterPass args _ rfl)
  · unfold trainArgsTrace
    simp only [onlyIncludeAudioAssigned, List.all_cons, List.all_append,
      List.all_eq_true, Bool.and_eq_true]
    refine ⟨⟨trivial, ?_⟩, ?_⟩
    · intro e he
      obtain ⟨n, _, rfl⟩ := List.mem_map.mp he
      rfl
    · intro e he
      cases is_master with
      | false => simp at he
      | true =>
          rw [if_pos rfl] at he
          simp only [List.mem_cons] at he
          rcases he with rfl | rfl | rfl | he
          · rfl
          · rfl
          · rfl
          · rw [List.mem_flatMap] at he
            obtain ⟨kv, _, hm⟩ := he
            obtain ⟨n, _, rfl⟩ := List.mem_map.mp hm
            rfl

/-- C5 counterexample: the claim's "no field of a `VoiceDatasetArgs`
instance is assigned after its constructor returns" is false for the
concrete master-rank trace of `train`, which assigns `include_audio` on the
copied validation args (`train.py` line 254). -/
theorem args_never_mutated_counterexample :
    noFieldAssignment
      (trainArgsTrace ["boolq"] { val_sets := ["peoplespeech"] } true) = false := by
  rfl


end Ultravox
